import Mathlib

/-!
Verification development for the taste-engine repository.

This file gives a shallow embedding of the four algorithmic cores of the
repository and proves the specified properties about them:

* the theme-pack normalizer and context resolver (`src/core/engine.ts`),
* the theme applier projecting tokens onto a DOM-like surface,
* the weighted taste-profile blender (`deriveTasteFromInspirations` in the
  MCP server source),
* the tuner clamp / URL round-trip pipeline (`useTuners` in the React
  bindings; the helper module `src/tuners.ts` is not part of the provided
  sources, so its two functions are modelled from the specification and
  marked as such in their doc comments).

JavaScript numbers are modelled as rationals (`ℚ`), JS objects as Lean
structures with `Option` fields where the source relies on absent keys or
optional chaining, and thrown errors as `Except`.
-/

-- =============================================================================
-- TASTE BLENDER (MCP server, `deriveTasteFromInspirations`)
-- =============================================================================

/-- `colorTemperature` values of a `TasteProfile`. -/
inductive ColorTemperature where
  | warm
  | cool
  | neutral
deriving DecidableEq, Repr

/-- The `TasteProfile` record: eight continuous fields, one categorical
field and one multi-valued field, as in the MCP contract. -/
structure TasteProfile where
  abstraction : ℚ
  restraint : ℚ
  density : ℚ
  motion : ℚ
  contrast : ℚ
  narrative : ℚ
  motifPreference : List String
  typographyLooseness : ℚ
  colorTemperature : ColorTemperature
  surfaceComplexity : ℚ
deriving DecidableEq, Repr

/-- One inspiration entry as accepted by `deriveTasteFromInspirations`:
`{ type: string; value: string; weight?: number }`. -/
structure Inspiration where
  type : String
  value : String
  weight : Option ℚ
deriving DecidableEq, Repr

/-- Error codes used by the server (only `InvalidRequest` is relevant here). -/
inductive McpErrorCode where
  | invalidRequest
deriving DecidableEq, Repr

/-- The `McpError` thrown by the server: a code and a message. -/
structure McpError where
  code : McpErrorCode
  message : String
deriving DecidableEq, Repr

/-- The `KNOWN_REFERENCES` table of the MCP server, keyed by reference name. -/
def KNOWN_REFERENCES : List (String × TasteProfile) :=
  [ ("linear",
     { abstraction := 0.7, restraint := 0.8, density := 0.4, motion := 0.6,
       contrast := 0.7, narrative := 0.5,
       motifPreference := ["gradients", "blur"],
       typographyLooseness := 0.3, colorTemperature := .cool,
       surfaceComplexity := 0.5 }),
    ("stripe",
     { abstraction := 0.5, restraint := 0.7, density := 0.5, motion := 0.7,
       contrast := 0.6, narrative := 0.7,
       motifPreference := ["gradients", "mesh"],
       typographyLooseness := 0.4, colorTemperature := .cool,
       surfaceComplexity := 0.6 }),
    ("vercel",
     { abstraction := 0.8, restraint := 0.9, density := 0.3, motion := 0.5,
       contrast := 0.8, narrative := 0.4,
       motifPreference := ["lines", "gradients"],
       typographyLooseness := 0.2, colorTemperature := .neutral,
       surfaceComplexity := 0.3 }),
    ("notion",
     { abstraction := 0.3, restraint := 0.6, density := 0.6, motion := 0.3,
       contrast := 0.5, narrative := 0.6,
       motifPreference := ["illustrations"],
       typographyLooseness := 0.5, colorTemperature := .warm,
       surfaceComplexity := 0.4 }),
    ("figma",
     { abstraction := 0.4, restraint := 0.5, density := 0.5, motion := 0.6,
       contrast := 0.5, narrative := 0.5,
       motifPreference := ["illustrations", "icons"],
       typographyLooseness := 0.4, colorTemperature := .warm,
       surfaceComplexity := 0.5 }),
    ("apple",
     { abstraction := 0.6, restraint := 0.8, density := 0.3, motion := 0.7,
       contrast := 0.7, narrative := 0.8,
       motifPreference := ["photography", "gradients"],
       typographyLooseness := 0.2, colorTemperature := .neutral,
       surfaceComplexity := 0.4 }),
    ("github",
     { abstraction := 0.4, restraint := 0.7, density := 0.6, motion := 0.3,
       contrast := 0.6, narrative := 0.4,
       motifPreference := ["icons", "illustrations"],
       typographyLooseness := 0.3, colorTemperature := .neutral,
       surfaceComplexity := 0.3 }),
    ("airbnb",
     { abstraction := 0.3, restraint := 0.4, density := 0.5, motion := 0.5,
       contrast := 0.5, narrative := 0.7,
       motifPreference := ["photography", "illustrations"],
       typographyLooseness := 0.5, colorTemperature := .warm,
       surfaceComplexity := 0.5 }),
    ("chronicle",
     { abstraction := 0.7, restraint := 0.6, density := 0.4, motion := 0.6,
       contrast := 0.7, narrative := 0.5,
       motifPreference := ["dots", "lines", "gradients"],
       typographyLooseness := 0.3, colorTemperature := .cool,
       surfaceComplexity := 0.6 }),
    ("raycast",
     { abstraction := 0.6, restraint := 0.8, density := 0.5, motion := 0.5,
       contrast := 0.7, narrative := 0.4,
       motifPreference := ["blur", "gradients"],
       typographyLooseness := 0.3, colorTemperature := .cool,
       surfaceComplexity := 0.5 }) ]

/-- Neutral default profile pushed for an unknown `reference-name` or
`reference` inspiration (at half weight). -/
def unknownReferenceProfile : TasteProfile :=
  { abstraction := 0.5, restraint := 0.5, density := 0.5, motion := 0.5,
    contrast := 0.5, narrative := 0.5, motifPreference := ["gradients"],
    typographyLooseness := 0.5, colorTemperature := .neutral,
    surfaceComplexity := 0.5 }

/-- Neutral default profile pushed for a `url` inspiration whose domain is
not a known reference (the source repeats the same literal; weight 0.3). -/
def unknownUrlProfile : TasteProfile :=
  { abstraction := 0.5, restraint := 0.5, density := 0.5, motion := 0.5,
    contrast := 0.5, narrative := 0.5, motifPreference := ["gradients"],
    typographyLooseness := 0.5, colorTemperature := .neutral,
    surfaceComplexity := 0.5 }

/-- Fixed profile pushed for a `screenshot` inspiration (at half weight). -/
def screenshotProfile : TasteProfile :=
  { abstraction := 0.6, restraint := 0.5, density := 0.5, motion := 0.4,
    contrast := 0.5, narrative := 0.5, motifPreference := ["gradients"],
    typographyLooseness := 0.5, colorTemperature := .neutral,
    surfaceComplexity := 0.5 }

/-- JS `String.prototype.toLowerCase`, modelled character-wise (the keys
compared in this engine are plain ASCII). -/
def jsToLowerCase (s : String) : String :=
  String.mk (s.data.map Char.toLower)

/-- Extraction of the reference name from a URL, as in the source:
`value.replace(/^https?:\/\//, '').split('/')[0]` followed by
`domain.replace(/\..*$/, '').toLowerCase()`. -/
def urlDomainName (value : String) : String :=
  let stripped :=
    if value.startsWith "https://" then value.drop 8
    else if value.startsWith "http://" then value.drop 7
    else value
  let domain := stripped.takeWhile (· ≠ '/')
  jsToLowerCase (domain.takeWhile (· ≠ '.'))

/-- The accumulation pass of `deriveTasteFromInspirations`: resolve each
inspiration to a `(profile, weight)` pair, in input order.  Entries with an
unrecognized `type` contribute nothing (the `if`/`else if` chain has no
final `else`). -/
def collectProfiles (inspirations : List Inspiration) : List (TasteProfile × ℚ) :=
  inspirations.flatMap fun insp =>
    let weight := insp.weight.getD 1
    if insp.type = "reference-name" ∨ insp.type = "reference" then
      match KNOWN_REFERENCES.lookup (jsToLowerCase insp.value) with
      | some ref => [(ref, weight)]
      | none => [(unknownReferenceProfile, weight * 0.5)]
    else if insp.type = "url" then
      match KNOWN_REFERENCES.lookup (urlDomainName insp.value) with
      | some ref => [(ref, weight)]
      | none => [(unknownUrlProfile, weight * 0.3)]
    else if insp.type = "screenshot" then
      [(screenshotProfile, weight * 0.5)]
    else
      []

/-- `profiles.reduce((sum, p) => sum + p.weight, 0)`. -/
def totalWeight (ps : List (TasteProfile × ℚ)) : ℚ :=
  ps.foldl (fun s p => s + p.2) 0

/-- The zero-initialized `blended` accumulator of the source. -/
def emptyBlend : TasteProfile :=
  { abstraction := 0, restraint := 0, density := 0, motion := 0,
    contrast := 0, narrative := 0, motifPreference := [],
    typographyLooseness := 0, colorTemperature := .neutral,
    surfaceComplexity := 0 }

/-- One iteration of the numeric blending loop: add `field * (weight / totalWeight)`
to each of the eight continuous fields. -/
def blendStep (tw : ℚ) (acc : TasteProfile) (pw : TasteProfile × ℚ) : TasteProfile :=
  let w := pw.2 / tw
  { acc with
    abstraction := acc.abstraction + pw.1.abstraction * w
    restraint := acc.restraint + pw.1.restraint * w
    density := acc.density + pw.1.density * w
    motion := acc.motion + pw.1.motion * w
    contrast := acc.contrast + pw.1.contrast * w
    narrative := acc.narrative + pw.1.narrative * w
    typographyLooseness := acc.typographyLooseness + pw.1.typographyLooseness * w
    surfaceComplexity := acc.surfaceComplexity + pw.1.surfaceComplexity * w }

/-- Motif collection: a JS `Set` filled in iteration order and converted
back with `Array.from`, i.e. deduplication keeping first occurrences. -/
def collectMotifs (ps : List (TasteProfile × ℚ)) : List String :=
  ps.foldl
    (fun acc pw =>
      pw.1.motifPreference.foldl (fun a m => if m ∈ a then a else a ++ [m]) acc)
    []

/-- The `tempCounts` accumulator `(warm, cool, neutral)`: weight summed per
color-temperature category. -/
def tempCounts (ps : List (TasteProfile × ℚ)) : ℚ × ℚ × ℚ :=
  ps.foldl
    (fun t pw =>
      match pw.1.colorTemperature with
      | .warm => (t.1 + pw.2, t.2.1, t.2.2)
      | .cool => (t.1, t.2.1 + pw.2, t.2.2)
      | .neutral => (t.1, t.2.1, t.2.2 + pw.2))
    (0, 0, 0)

/-- The color-temperature decision of the source:
`warm > cool && warm > neutral ? warm : cool > neutral ? cool : neutral`. -/
def pickTemperature (t : ℚ × ℚ × ℚ) : ColorTemperature :=
  if t.1 > t.2.1 ∧ t.1 > t.2.2 then .warm
  else if t.2.1 > t.2.2 then .cool
  else .neutral

/-- The blending phase of `deriveTasteFromInspirations` (everything after
the accumulation pass). -/
def blendProfiles (ps : List (TasteProfile × ℚ)) : TasteProfile :=
  let numeric := ps.foldl (blendStep (totalWeight ps)) emptyBlend
  { numeric with
    motifPreference := collectMotifs ps
    colorTemperature := pickTemperature (tempCounts ps) }

/-- `deriveTasteFromInspirations`: fail on an empty inspiration list,
otherwise resolve and blend.  (The source's `async` wrapper contains no
awaits on this path and is dropped; the thrown `McpError` becomes an
`Except.error`.) -/
def deriveTasteFromInspirations (inspirations : List Inspiration) :
    Except McpError TasteProfile :=
  if inspirations.length = 0 then
    .error ⟨.invalidRequest, "At least one inspiration required"⟩
  else
    .ok (blendProfiles (collectProfiles inspirations))

-- =============================================================================
-- TUNER PIPELINE (React bindings `useTuners`, plus the `src/tuners.ts` helpers)
-- =============================================================================

/-- The `AppliedTuners` record: five continuous parameters. -/
structure AppliedTuners where
  abstraction : ℚ
  density : ℚ
  motion : ℚ
  contrast : ℚ
  narrative : ℚ
deriving DecidableEq, Repr

/-- A key of `AppliedTuners` (`keyof AppliedTuners`). -/
inductive TunerKey where
  | abstraction
  | density
  | motion
  | contrast
  | narrative
deriving DecidableEq, Repr

/-- Read one field of an `AppliedTuners` record by key. -/
def getTuner (t : AppliedTuners) : TunerKey → ℚ
  | .abstraction => t.abstraction
  | .density => t.density
  | .motion => t.motion
  | .contrast => t.contrast
  | .narrative => t.narrative

/-- The `setTuner` updater of `useTuners`:
`{ ...prev, [key]: Math.max(0, Math.min(1, value)) }`. -/
def setTuner (prev : AppliedTuners) (key : TunerKey) (value : ℚ) : AppliedTuners :=
  match key with
  | .abstraction => { prev with abstraction := max 0 (min 1 value) }
  | .density => { prev with density := max 0 (min 1 value) }
  | .motion => { prev with motion := max 0 (min 1 value) }
  | .contrast => { prev with contrast := max 0 (min 1 value) }
  | .narrative => { prev with narrative := max 0 (min 1 value) }

/-- `DEFAULT_TUNERS`: all five parameters default to 0.5. -/
def DEFAULT_TUNERS : AppliedTuners :=
  { abstraction := 0.5, density := 0.5, motion := 0.5, contrast := 0.5,
    narrative := 0.5 }

/-- JS `value.toFixed(1)` on a non-negative value, read back as the rational
it denotes: the nearest multiple of 1/10, ties rounded up.  (The binary
floating-point representation is abstracted to exact rationals.) -/
def toFixed1 (q : ℚ) : ℚ := ((⌊q * 10 + 1 / 2⌋ : ℤ) : ℚ) / 10

/-- `syncToURL` serialization: `Object.entries(tuners)` in field declaration
order, each value formatted to one decimal place and stored under its key as
a flat query-string entry (the decimal string is identified with the
rational it denotes). -/
def serializeTuners (t : AppliedTuners) : List (String × ℚ) :=
  [ ("abstraction", toFixed1 t.abstraction),
    ("density", toFixed1 t.density),
    ("motion", toFixed1 t.motion),
    ("contrast", toFixed1 t.contrast),
    ("narrative", toFixed1 t.narrative) ]

/-- A `Partial<TunerValues>` record: every field optional. -/
structure PartialTuners where
  abstraction : Option ℚ
  density : Option ℚ
  motion : Option ℚ
  contrast : Option ℚ
  narrative : Option ℚ
deriving DecidableEq, Repr

/-- Modelled from the spec: one lookup step of `parseTunersFromURL`, whose
implementation (`src/tuners.ts`) is not among the provided sources.  Per the
spec, deserialization reads one flat entry per tuner key and drops
unparsable or out-of-range values (treated as absent); unparsable strings
cannot arise here because serialized values are modelled as the rationals
they denote. -/
def readTunerParam (params : List (String × ℚ)) (key : String) : Option ℚ :=
  match params.lookup key with
  | some v => if 0 ≤ v ∧ v ≤ 1 then some v else none
  | none => none

/-- Modelled from the spec: `parseTunersFromURL` (from the missing
`src/tuners.ts`): read the five tuner keys from a flat key-value mapping,
ignoring unknown keys. -/
def parseTunersFromURL (params : List (String × ℚ)) : PartialTuners :=
  { abstraction := readTunerParam params "abstraction"
    density := readTunerParam params "density"
    motion := readTunerParam params "motion"
    contrast := readTunerParam params "contrast"
    narrative := readTunerParam params "narrative" }

/-- Modelled from the spec: `normalizeTuners` (from the missing
`src/tuners.ts`): for each field take the supplied value if present, else
the default 0.5, and clamp to `[0, 1]` inclusive. -/
def normalizeTuners (p : PartialTuners) : AppliedTuners :=
  { abstraction := max 0 (min 1 (p.abstraction.getD 0.5))
    density := max 0 (min 1 (p.density.getD 0.5))
    motion := max 0 (min 1 (p.motion.getD 0.5))
    contrast := max 0 (min 1 (p.contrast.getD 0.5))
    narrative := max 0 (min 1 (p.narrative.getD 0.5)) }

/-- One-decimal rounding applied to every field of an `AppliedTuners`. -/
def mapToFixed1 (t : AppliedTuners) : AppliedTuners :=
  { abstraction := toFixed1 t.abstraction
    density := toFixed1 t.density
    motion := toFixed1 t.motion
    contrast := toFixed1 t.contrast
    narrative := toFixed1 t.narrative }

/-- View a full `AppliedTuners` record as a `PartialTuners` with every
field present. -/
def partialOf (t : AppliedTuners) : PartialTuners :=
  { abstraction := some t.abstraction
    density := some t.density
    motion := some t.motion
    contrast := some t.contrast
    narrative := some t.narrative }

/-- All five fields of an `AppliedTuners` lie in `[0, 1]`. -/
def tunersValid (t : AppliedTuners) : Prop :=
  (0 ≤ t.abstraction ∧ t.abstraction ≤ 1) ∧
  (0 ≤ t.density ∧ t.density ≤ 1) ∧
  (0 ≤ t.motion ∧ t.motion ≤ 1) ∧
  (0 ≤ t.contrast ∧ t.contrast ≤ 1) ∧
  (0 ≤ t.narrative ∧ t.narrative ≤ 1)

instance (t : AppliedTuners) : Decidable (tunersValid t) := by
  unfold tunersValid; infer_instance

-- =============================================================================
-- THEME ENGINE DATA MODEL (`src/core/types.ts`)
-- =============================================================================

/-- `ThemeMode = 'dark' | 'light'`. -/
inductive ThemeMode where
  | dark
  | light
deriving DecidableEq, Repr

/-- `PageContext = 'product' | 'marketing'`. -/
inductive PageContext where
  | product
  | marketing
deriving DecidableEq, Repr

/-- One named step of the type scale. -/
structure TypeScaleToken where
  fontSize : String
  fontWeight : String
  letterSpacing : String
  lineHeight : String
  textTransform : Option String
deriving DecidableEq, Repr

/-- The seven named steps of the type scale.  The applier iterates
`Object.entries(tokens.typeScale)`; the interface declaration order
h1, h2, h3, body, kpi, kpiCompact, label models the object's key order. -/
structure TypeScale where
  h1 : TypeScaleToken
  h2 : TypeScaleToken
  h3 : TypeScaleToken
  body : TypeScaleToken
  kpi : TypeScaleToken
  kpiCompact : TypeScaleToken
  label : TypeScaleToken
deriving DecidableEq, Repr

/-- The eight named density dimensions, in interface declaration order. -/
structure DensityTokens where
  tableRowHeight : String
  tableRowHeightCompact : String
  controlHeight : String
  controlHeightSm : String
  pageGutter : String
  sectionGap : String
  cardPadding : String
  cardPaddingCompact : String
deriving DecidableEq, Repr

/-- The full `ThemeTokens` record. -/
structure ThemeTokens where
  bg : String
  surface : String
  surface2 : String
  surfaceInset : String
  border : String
  borderSubtle : String
  text : String
  textMuted : String
  accent : String
  accentFg : String
  accentMuted : String
  accentSecondary : String
  ring : String
  success : String
  successMuted : String
  warning : String
  warningMuted : String
  danger : String
  dangerMuted : String
  shadowSurface : String
  shadowPopover : String
  shadowGlow : String
  radiusSurface : String
  radiusControl : String
  typeScale : TypeScale
  density : DensityTokens
deriving DecidableEq, Repr

/-- The `AppShell` recipe as manipulated by the normalizer: only
`backgroundTreatment` is read or overridden; all other fields are spread
through untouched and are carried as opaque key-value entries. -/
structure AppShellRecipe where
  backgroundTreatment : Option String
  rest : List (String × String)
deriving DecidableEq, Repr

/-- A surface variant (`SurfaceRecipe`): the fields the normalizer reads or
writes, plus opaque passthrough entries.  In a malformed legacy input any
field may be absent, hence `Option`. -/
structure SurfaceVariant where
  border : Option Bool
  borderOpacity : Option String
  shadow : Option Bool
  gradient : Option Bool
  gradientDirection : Option String
  background : Option String
  rest : List (String × String)
deriving DecidableEq, Repr

/-- The `Surface` recipe group of a product/legacy recipe set: the
normalizer reads `default` and `floating`; other variants (e.g. `inset`)
are opaque passthrough data. -/
structure SurfaceGroup where
  dfault : Option SurfaceVariant
  floating : Option SurfaceVariant
  rest : List (String × String)
deriving DecidableEq, Repr

/-- `spacing: { top, bottom }` of a section header. -/
structure SpacingTB where
  top : Option String
  bottom : Option String
deriving DecidableEq, Repr

/-- The `SectionHeader` recipe: fields the normalizer overrides
(`style`, `titleSize`, `spacing`) plus the spread-through remainder. -/
structure SectionHeaderRecipe where
  style : Option String
  titleSize : Option String
  titleWeight : Option String
  subtitleOpacity : Option String
  subtitleMaxWidth : Option String
  spacing : Option SpacingTB
  rest : List (String × String)
deriving DecidableEq, Repr

/-- The legacy (single-context) recipe fields that the normalizer touches;
every recipe the engine never inspects (StatCard, DataTable, Toolbar, ...)
is carried opaquely in `rest`. -/
structure LegacyFields where
  AppShell : Option AppShellRecipe
  Surface : Option SurfaceGroup
  SectionHeader : Option SectionHeaderRecipe
  rest : List (String × String)
deriving DecidableEq, Repr

/-- `IconSystemRecipe`. -/
structure IconSystemRecipe where
  defaultSize : Nat
  compactSize : Nat
  largeSize : Nat
  strokeWidth : ℚ
  mutedOpacity : String
  colorMode : String
deriving DecidableEq, Repr

/-- `PlaceholderRecipe`. -/
structure PlaceholderRecipe where
  style : String
  shimmer : Bool
  shimmerDirection : String
  baseColor : String
  highlightColor : String
  borderRadius : String
deriving DecidableEq, Repr

/-- `BackgroundMotifRecipe`. -/
structure BackgroundMotifRecipe where
  heroMotif : String
  motifSpacing : Option String
  motifOpacity : String
  motifColor : String
deriving DecidableEq, Repr

/-- `MediaRecipes`. -/
structure MediaRecipes where
  icon : IconSystemRecipe
  placeholder : PlaceholderRecipe
  backgroundMotif : BackgroundMotifRecipe
deriving DecidableEq, Repr

/-- `MotionDurations`. -/
structure MotionDurations where
  instant : Nat
  fast : Nat
  normal : Nat
  slow : Nat
  deliberate : Nat
deriving DecidableEq, Repr

/-- `MotionEasings`. -/
structure MotionEasings where
  dfault : String
  enter : String
  exit : String
  spring : String
deriving DecidableEq, Repr

/-- `MotionBehavior`. -/
structure MotionBehavior where
  enabled : Bool
  loadingStyle : String
  hoverTransition : String
  entranceAnimation : String
  staggerDelay : Nat
deriving DecidableEq, Repr

/-- `MotionRecipes`. -/
structure MotionRecipes where
  durations : MotionDurations
  easings : MotionEasings
  behavior : MotionBehavior
deriving DecidableEq, Repr

/-- One background motif layer. -/
structure MotifLayer where
  type : String
  opacity : ℚ
  color : String
  blur : Option Nat
  scale : Option ℚ
  animate : Option String
  zIndex : Option Nat
deriving DecidableEq, Repr

/-- A partial motif layer used in audience overrides. -/
structure MotifLayerOverride where
  type : String
  opacity : ℚ
  color : Option String
deriving DecidableEq, Repr

/-- `MotifsRecipe`. -/
structure MotifsRecipe where
  layers : List MotifLayer
  intensity : ℚ
  audienceOverrides : List (String × List MotifLayerOverride)
deriving DecidableEq, Repr

/-- One storyboard section. -/
structure StoryboardSection where
  type : String
  id : String
  motion : String
  withMotifs : Bool
  signatureBlock : Option String
deriving DecidableEq, Repr

/-- `StoryboardRecipe`. -/
structure StoryboardRecipe where
  sections : List StoryboardSection
  audienceOverrides : List (String × List String)
deriving DecidableEq, Repr

/-- The gradient of a signal-path block. -/
structure SignalPathGradient where
  gradFrom : String
  gradTo : String
  direction : String
deriving DecidableEq, Repr

/-- `SignalPathRecipe`. -/
structure SignalPathRecipe where
  strokeColor : String
  strokeOpacity : ℚ
  strokeWidth : ℚ
  nodeColor : String
  nodeGlow : Bool
  blur : Nat
  gradient : SignalPathGradient
  animateOnScroll : Bool
  complexity : String
deriving DecidableEq, Repr

/-- `StackedCardsRecipe`. -/
structure StackedCardsRecipe where
  rotationRange : Nat
  shadowDepth : String
  borderStyle : String
  hoverEffect : String
  visibleCards : Nat
  stackDirection : String
deriving DecidableEq, Repr

/-- `MetricRibbonRecipe`. -/
structure MetricRibbonRecipe where
  background : String
  separator : String
  valueStyle : String
  labelStyle : String
  count : Nat
deriving DecidableEq, Repr

/-- `SignatureBlocksRecipe`. -/
structure SignatureBlocksRecipe where
  signalPath : Bool
  stackedCards : Bool
  metricRibbon : Bool
  signalPathConfig : SignalPathRecipe
  stackedCardsConfig : StackedCardsRecipe
  metricRibbonConfig : MetricRibbonRecipe
deriving DecidableEq, Repr

/-- `MotionBindingsRecipe`. -/
structure MotionBindingsRecipe where
  heroEntrance : String
  heroMotifAnimation : String
  featuresEntrance : String
  featuresStaggerDelay : Nat
  sbSignalPath : String
  sbStackedCards : String
  sbMetricRibbon : String
deriving DecidableEq, Repr

/-- A full product-context recipe set: the legacy recipe fields plus the
synthesized `media` and `motion` groups. -/
structure ProductRecipes where
  base : LegacyFields
  media : MediaRecipes
  motion : MotionRecipes
deriving DecidableEq, Repr

/-- The marketing `Surface` group: `default`, `hero`, `feature`. -/
structure MarketingSurfaceGroup where
  dfault : SurfaceVariant
  hero : SurfaceVariant
  feature : SurfaceVariant
deriving DecidableEq, Repr

/-- The marketing `Hero` recipe. -/
structure HeroRecipe where
  titleSize : String
  titleWeight : String
  titleTracking : String
  titleMaxWidth : String
  subtitleSize : String
  subtitleOpacity : String
  subtitleMaxWidth : String
  spacingPaddingY : String
  spacingGap : String
  accentGradient : Bool
deriving DecidableEq, Repr

/-- The marketing `FeatureCard` recipe. -/
structure FeatureCardRecipe where
  style : String
  iconStyle : String
  hoverEffect : String
deriving DecidableEq, Repr

/-- The marketing `AccentUsage` recipe. -/
structure AccentUsageRecipe where
  gradientAllowed : Bool
  textEmphasisAllowed : Bool
  backgroundGradient : String
deriving DecidableEq, Repr

/-- The marketing `LayoutRhythm` recipe. -/
structure LayoutRhythmRecipe where
  sectionGap : String
  heroBottomGap : String
  featureGap : String
deriving DecidableEq, Repr

/-- A full marketing-context recipe set. -/
structure MarketingRecipes where
  AppShell : AppShellRecipe
  Surface : MarketingSurfaceGroup
  Hero : HeroRecipe
  SectionHeader : SectionHeaderRecipe
  FeatureCard : FeatureCardRecipe
  AccentUsage : AccentUsageRecipe
  LayoutRhythm : LayoutRhythmRecipe
  media : MediaRecipes
  motion : MotionRecipes
  motifs : MotifsRecipe
  storyboard : StoryboardRecipe
  signatureBlocks : SignatureBlocksRecipe
  motionBindings : MotionBindingsRecipe
deriving DecidableEq, Repr

/-- A theme pack's `recipes` record as duck-typed by the engine: the
current shape carries `product` and `marketing` keys; a legacy shape
carries the flat recipe fields directly (`legacy`).  `Option.none` models
an absent key. -/
structure RawRecipes where
  product : Option ProductRecipes
  marketing : Option MarketingRecipes
  legacy : LegacyFields
deriving DecidableEq, Repr

/-- A stored `ThemePack` (output type of the normalizer). -/
structure ThemePack where
  name : String
  mode : ThemeMode
  tokens : ThemeTokens
  recipes : RawRecipes
deriving DecidableEq, Repr

/-- The normalizer's input shape
`Partial<ThemePack> & { name; mode; tokens }`: `recipes` may be absent
altogether. -/
structure RawPack where
  name : String
  mode : ThemeMode
  tokens : ThemeTokens
  recipes : Option RawRecipes
deriving DecidableEq, Repr

/-- A `ThemePack` viewed again as normalizer input. -/
def ThemePack.toRaw (p : ThemePack) : RawPack :=
  { name := p.name, mode := p.mode, tokens := p.tokens, recipes := some p.recipes }

-- =============================================================================
-- DEFAULT RECIPES (`src/core/engine.ts`)
-- =============================================================================

/-- `getProductMediaRecipes(mode)`. -/
def getProductMediaRecipes (mode : ThemeMode) : MediaRecipes :=
  { icon :=
      { defaultSize := 16, compactSize := 14, largeSize := 24,
        strokeWidth := 1.5, mutedOpacity := "0.5", colorMode := "currentColor" }
    placeholder :=
      { style := "skeleton", shimmer := true, shimmerDirection := "ltr"
        baseColor := if mode = .dark then "surface-inset" else "surface-2"
        highlightColor := if mode = .dark then "surface" else "surface"
        borderRadius := "var(--ds-radius-control)" }
    backgroundMotif :=
      { heroMotif := "none", motifSpacing := none, motifOpacity := "0",
        motifColor := "border" } }

/-- `getMarketingMediaRecipes(mode)`. -/
def getMarketingMediaRecipes (mode : ThemeMode) : MediaRecipes :=
  { icon :=
      { defaultSize := 20, compactSize := 16, largeSize := 32,
        strokeWidth := 1.5, mutedOpacity := "0.6", colorMode := "accent" }
    placeholder :=
      { style := if mode = .dark then "blur" else "skeleton"
        shimmer := mode ≠ .dark
        shimmerDirection := "ltr"
        baseColor := if mode = .dark then "surface/50" else "surface-2"
        highlightColor := if mode = .dark then "accent/10" else "surface"
        borderRadius := "var(--ds-radius-surface)" }
    backgroundMotif :=
      { heroMotif := if mode = .dark then "radialGlow" else "dots"
        motifSpacing := some "32px"
        motifOpacity := if mode = .dark then "0.15" else "0.08"
        motifColor := if mode = .dark then "accent" else "border" } }

/-- `getProductMotionRecipes()`.  (The `easings.default` field is spelled
`dfault` because `default` cannot be a Lean field name here.) -/
def getProductMotionRecipes : MotionRecipes :=
  { durations := { instant := 50, fast := 150, normal := 200, slow := 300, deliberate := 500 }
    easings :=
      { dfault := "cubic-bezier(0.4, 0, 0.2, 1)"
        enter := "cubic-bezier(0, 0, 0.2, 1)"
        exit := "cubic-bezier(0.4, 0, 1, 1)"
        spring := "cubic-bezier(0.34, 1.56, 0.64, 1)" }
    behavior :=
      { enabled := true, loadingStyle := "shimmer", hoverTransition := "fast",
        entranceAnimation := "none", staggerDelay := 0 } }

/-- `getMarketingMotionRecipes()`. -/
def getMarketingMotionRecipes : MotionRecipes :=
  { durations := { instant := 50, fast := 200, normal := 300, slow := 500, deliberate := 800 }
    easings :=
      { dfault := "cubic-bezier(0.4, 0, 0.2, 1)"
        enter := "cubic-bezier(0.22, 1, 0.36, 1)"
        exit := "cubic-bezier(0.4, 0, 1, 1)"
        spring := "cubic-bezier(0.34, 1.56, 0.64, 1)" }
    behavior :=
      { enabled := true, loadingStyle := "pulse", hoverTransition := "normal",
        entranceAnimation := "slideUp", staggerDelay := 50 } }

/-- The `motifs` part of `getMarketingNarrativeRecipes(mode)`. -/
def narrativeMotifs (mode : ThemeMode) : MotifsRecipe :=
  let isDark := mode = .dark
  { layers :=
      [ { type := "grid", opacity := if isDark then 0.03 else 0.02,
          color := if isDark then "accent" else "border",
          blur := none, scale := some 1, animate := some "none", zIndex := some 0 },
        { type := "glowField", opacity := if isDark then 0.15 else 0.08,
          color := "accent", blur := some 120, scale := some 1.5,
          animate := some "breathe", zIndex := some 1 },
        { type := "noise", opacity := if isDark then 0.02 else 0.015,
          color := "text", blur := none, scale := some 1,
          animate := some "none", zIndex := some 2 } ]
    intensity := 1
    audienceOverrides :=
      [ ("hotel-owner",
         [ { type := "glowField", opacity := if isDark then 0.18 else 0.1,
             color := some "accent" } ]),
        ("developer",
         [ { type := "grid", opacity := if isDark then 0.05 else 0.03, color := none },
           { type := "signalPaths", opacity := if isDark then 0.08 else 0.04,
             color := some "accent" } ]) ] }

/-- The `storyboard` part of `getMarketingNarrativeRecipes(mode)`. -/
def narrativeStoryboard : StoryboardRecipe :=
  { sections :=
      [ { type := "hero", id := "hero", motion := "fadeUp", withMotifs := true,
          signatureBlock := some "SignalPathGraphic" },
        { type := "narrative2", id := "narrative", motion := "fadeUp",
          withMotifs := false, signatureBlock := none },
        { type := "proof3", id := "proof", motion := "fadeUp",
          withMotifs := false, signatureBlock := none },
        { type := "banner", id := "metrics", motion := "slideIn",
          withMotifs := false, signatureBlock := some "MetricRibbon" },
        { type := "stackedCards", id := "cards", motion := "fadeUp",
          withMotifs := false, signatureBlock := some "StackedCards" },
        { type := "cta", id := "cta", motion := "fadeUp", withMotifs := true,
          signatureBlock := none } ]
    audienceOverrides :=
      [ ("hotel-owner", ["hero", "narrative", "metrics", "proof", "cards", "cta"]),
        ("developer", ["hero", "proof", "narrative", "cards", "metrics", "cta"]) ] }

/-- The `signatureBlocks` part of `getMarketingNarrativeRecipes(mode)`. -/
def narrativeSignatureBlocks (mode : ThemeMode) : SignatureBlocksRecipe :=
  let isDark := mode = .dark
  { signalPath := true
    stackedCards := true
    metricRibbon := true
    signalPathConfig :=
      { strokeColor := "accent"
        strokeOpacity := if isDark then 0.4 else 0.25
        strokeWidth := 1.5
        nodeColor := "accent"
        nodeGlow := isDark
        blur := if isDark then 8 else 4
        gradient := { gradFrom := "accent", gradTo := "accent-secondary",
                      direction := "135deg" }
        animateOnScroll := true
        complexity := "medium" }
    stackedCardsConfig :=
      { rotationRange := 6
        shadowDepth := if isDark then "dramatic" else "medium"
        borderStyle := "subtle"
        hoverEffect := "lift"
        visibleCards := 3
        stackDirection := "right" }
    metricRibbonConfig :=
      { background := if isDark then "surface" else "accent-muted"
        separator := "line"
        valueStyle := if isDark then "gradient" else "bold"
        labelStyle := "muted"
        count := 4 } }

/-- The `motionBindings` part of `getMarketingNarrativeRecipes(mode)`. -/
def narrativeMotionBindings : MotionBindingsRecipe :=
  { heroEntrance := "fadeUp", heroMotifAnimation := "breathe",
    featuresEntrance := "stagger", featuresStaggerDelay := 100,
    sbSignalPath := "draw", sbStackedCards := "cascade", sbMetricRibbon := "countUp" }

-- =============================================================================
-- THEME NORMALIZATION (`normalizeThemePack`)
-- =============================================================================

/-- The empty object obtained from spreading an absent recipe
(`{...undefined}` is `{}` in JS). -/
def emptyAppShell : AppShellRecipe := { backgroundTreatment := none, rest := [] }

/-- The empty surface variant (spread of an absent variant). -/
def emptySurfaceVariant : SurfaceVariant :=
  { border := none, borderOpacity := none, shadow := none, gradient := none,
    gradientDirection := none, background := none, rest := [] }

/-- The empty section header (spread of an absent section header). -/
def emptySectionHeader : SectionHeaderRecipe :=
  { style := none, titleSize := none, titleWeight := none,
    subtitleOpacity := none, subtitleMaxWidth := none, spacing := none, rest := [] }

/-- The synthesized marketing recipe set of the legacy branch of
`normalizeThemePack`.  `pr` is the legacy recipe set, read through optional
chaining exactly where the source does. -/
def synthesizeMarketingRecipes (pr : LegacyFields) (tokens : ThemeTokens)
    (mode : ThemeMode) : MarketingRecipes :=
  let shell := pr.AppShell.getD emptyAppShell
  let surfaceDefault := (pr.Surface.bind SurfaceGroup.dfault).getD emptySurfaceVariant
  let surfaceFloating := (pr.Surface.bind SurfaceGroup.floating).getD emptySurfaceVariant
  let sectionHeader := pr.SectionHeader.getD emptySectionHeader
  { AppShell :=
      { shell with
        backgroundTreatment :=
          if pr.AppShell.bind AppShellRecipe.backgroundTreatment = some "chronicle"
          then some "chronicle" else some "none" }
    Surface :=
      { dfault := { surfaceDefault with border := some false, gradient := some true }
        hero :=
          { border := some false, borderOpacity := some "0", shadow := some false,
            gradient := some true, gradientDirection := some "to bottom",
            background := some "transparent", rest := [] }
        feature := { surfaceFloating with gradient := some false } }
    Hero :=
      { titleSize := "3.5rem", titleWeight := "700", titleTracking := "-0.03em",
        titleMaxWidth := "800px", subtitleSize := "1.25rem",
        subtitleOpacity := "0.7", subtitleMaxWidth := "600px",
        spacingPaddingY := "80px", spacingGap := "24px",
        accentGradient := mode = .dark }
    SectionHeader :=
      { sectionHeader with
        style := some "centered"
        titleSize := some "2.5rem"
        spacing := some { top := some "0", bottom := some "48px" } }
    FeatureCard :=
      { style := if mode = .dark then "glass" else "elevated",
        iconStyle := "accent", hoverEffect := "lift" }
    AccentUsage :=
      { gradientAllowed := true
        textEmphasisAllowed := true
        backgroundGradient :=
          if mode = .dark then
            "linear-gradient(135deg, hsl(" ++ tokens.accent ++ " / 0.15), transparent)"
          else
            "linear-gradient(135deg, hsl(" ++ tokens.accentMuted ++ "), transparent)" }
    LayoutRhythm :=
      { sectionGap := "120px", heroBottomGap := "80px", featureGap := "32px" }
    media := getMarketingMediaRecipes mode
    motion := getMarketingMotionRecipes
    motifs := narrativeMotifs mode
    storyboard := narrativeStoryboard
    signatureBlocks := narrativeSignatureBlocks mode
    motionBindings := narrativeMotionBindings }

/-- `normalizeThemePack`.

* If `raw.recipes` is present and has both `product` and `marketing`
  keys, the input is returned unchanged.
* Otherwise the legacy branch runs.  If `raw.recipes` is absent
  altogether, building `fullProductRecipes` still succeeds (spreading
  `undefined` yields `{}`), but the very first field of the marketing
  literal evaluates `productRecipes.AppShell` — a property access on
  `undefined` — and the function throws a `TypeError`; this is modelled
  as `Except.error`.
* With `raw.recipes` present, the legacy recipe fields are wrapped as the
  product set (plus synthesized media/motion) and a marketing set is
  synthesized.  (A half-tagged input carrying only one of the two context
  keys takes this branch too; its stray context key is spread through
  opaquely by the source and never read, and is dropped here.) -/
def normalizeThemePack (raw : RawPack) : Except String ThemePack :=
  match raw.recipes with
  | some r =>
    if r.product.isSome ∧ r.marketing.isSome then
      .ok { name := raw.name, mode := raw.mode, tokens := raw.tokens, recipes := r }
    else
      .ok
        { name := raw.name
          mode := raw.mode
          tokens := raw.tokens
          recipes :=
            { product :=
                some { base := r.legacy
                       media := getProductMediaRecipes raw.mode
                       motion := getProductMotionRecipes }
              marketing :=
                some (synthesizeMarketingRecipes r.legacy raw.tokens raw.mode)
              legacy := { AppShell := none, Surface := none, SectionHeader := none,
                          rest := [] } } }
  | none =>
    .error "TypeError: Cannot read properties of undefined (reading AppShell)"

-- =============================================================================
-- CONTEXT RESOLUTION (`ThemeEngine.getRecipesForContext`)
-- =============================================================================

/-- The value returned by `getRecipesForContext`: a product set, a
marketing set, the bare legacy recipe record itself, or JS `undefined`
(reachable only on half-tagged recipe records). -/
inductive ResolvedRecipes where
  | product (p : ProductRecipes)
  | marketing (m : MarketingRecipes)
  | legacy (l : LegacyFields)
  | jsUndefined
deriving DecidableEq, Repr

/-- `ThemeEngine.getRecipesForContext(theme, context)`: if the recipes
record has neither a truthy `product` nor a truthy `marketing` key it is
returned as-is (legacy, treated as product); otherwise the
context-selected subtree is returned. -/
def getRecipesForContext (theme : ThemePack) (context : PageContext) :
    ResolvedRecipes :=
  let recipes := theme.recipes
  if recipes.product.isNone ∧ recipes.marketing.isNone then
    .legacy recipes.legacy
  else if context = .marketing then
    match recipes.marketing with
    | some m => .marketing m
    | none => .jsUndefined
  else
    match recipes.product with
    | some p => .product p
    | none => .jsUndefined

-- =============================================================================
-- THEME APPLICATION (`ThemeEngine.applyTheme`)
-- =============================================================================

/-- `'dark' | 'light'` as the string written to `data-theme-mode`. -/
def modeStr : ThemeMode → String
  | .dark => "dark"
  | .light => "light"

/-- `'product' | 'marketing'` as the string written to `data-context`. -/
def contextStr : PageContext → String
  | .product => "product"
  | .marketing => "marketing"

/-- Collapse every run of whitespace to a single hyphen
(`.replace(/\s+/g, '-')`); the boolean tracks whether the previous
character was part of a whitespace run. -/
def collapseWsAux : Bool → List Char → List Char
  | _, [] => []
  | prevWs, c :: rest =>
    if c.isWhitespace then
      if prevWs then collapseWsAux true rest
      else '-' :: collapseWsAux true rest
    else c :: collapseWsAux false rest

/-- Collapse every run of whitespace to a single hyphen. -/
def collapseWs (l : List Char) : List Char :=
  collapseWsAux false l

/-- The registry/attribute key of a theme name:
`name.toLowerCase().replace(/\s+/g, '-')`. -/
def themeKeyOf (name : String) : String :=
  String.mk (collapseWs name.toLower.data)

/-- `key.replace(/([A-Z])/g, '-$1').toLowerCase()`: each uppercase letter
becomes a hyphen followed by its lowercase form. -/
def kebabCase (s : String) : String :=
  String.mk (s.data.foldr
    (fun c acc => if c.isUpper then '-' :: c.toLower :: acc else c :: acc) [])

/-- `Object.entries(tokens.typeScale)` in key order. -/
def typeScaleEntries (ts : TypeScale) : List (String × TypeScaleToken) :=
  [ ("h1", ts.h1), ("h2", ts.h2), ("h3", ts.h3), ("body", ts.body),
    ("kpi", ts.kpi), ("kpiCompact", ts.kpiCompact), ("label", ts.label) ]

/-- `Object.entries(tokens.density)` in key order. -/
def densityEntries (d : DensityTokens) : List (String × String) :=
  [ ("tableRowHeight", d.tableRowHeight),
    ("tableRowHeightCompact", d.tableRowHeightCompact),
    ("controlHeight", d.controlHeight),
    ("controlHeightSm", d.controlHeightSm),
    ("pageGutter", d.pageGutter),
    ("sectionGap", d.sectionGap),
    ("cardPadding", d.cardPadding),
    ("cardPaddingCompact", d.cardPaddingCompact) ]

/-- The four (or five, with `textTransform`) custom properties written for
one type-scale step. -/
def typeScaleWrites (k : String) (v : TypeScaleToken) : List (String × String) :=
  [ ("--ds-type-" ++ k ++ "-size", v.fontSize),
    ("--ds-type-" ++ k ++ "-weight", v.fontWeight),
    ("--ds-type-" ++ k ++ "-tracking", v.letterSpacing),
    ("--ds-type-" ++ k ++ "-leading", v.lineHeight) ] ++
  (match v.textTransform with
   | some t => [("--ds-type-" ++ k ++ "-transform", t)]
   | none => [])

/-- The full ordered sequence of `root.style.setProperty` calls performed
by one `applyTheme` invocation: core colors, semantic colors, shadows,
radii, type scale, density. -/
def styleWrites (theme : ThemePack) : List (String × String) :=
  let tokens := theme.tokens
  [ ("--ds-bg", tokens.bg),
    ("--ds-surface", tokens.surface),
    ("--ds-surface-2", tokens.surface2),
    ("--ds-surface-inset", tokens.surfaceInset),
    ("--ds-border", tokens.border),
    ("--ds-border-subtle", tokens.borderSubtle),
    ("--ds-text", tokens.text),
    ("--ds-text-muted", tokens.textMuted),
    ("--ds-accent", tokens.accent),
    ("--ds-accent-foreground", tokens.accentFg),
    ("--ds-accent-muted", tokens.accentMuted),
    ("--ds-accent-secondary", tokens.accentSecondary),
    ("--ds-ring", tokens.ring),
    ("--ds-success", tokens.success),
    ("--ds-success-muted", tokens.successMuted),
    ("--ds-warning", tokens.warning),
    ("--ds-warning-muted", tokens.warningMuted),
    ("--ds-danger", tokens.danger),
    ("--ds-danger-muted", tokens.dangerMuted),
    ("--ds-shadow-surface", tokens.shadowSurface),
    ("--ds-shadow-popover", tokens.shadowPopover),
    ("--ds-shadow-glow", tokens.shadowGlow),
    ("--ds-radius-surface", tokens.radiusSurface),
    ("--ds-radius-control", tokens.radiusControl) ] ++
  (typeScaleEntries tokens.typeScale).flatMap (fun kv => typeScaleWrites kv.1 kv.2) ++
  (densityEntries tokens.density).map
    (fun kv => ("--ds-density-" ++ kebabCase kv.1, kv.2))

/-- The DOM surface as the applier sees it: named attributes, the
Tailwind `dark` class, and the custom-property style map (keyed
assignments, last write per key wins). -/
structure Dom where
  attrs : String → Option String
  darkClass : Bool
  style : String → Option String

/-- The engine's process-wide applied state. -/
structure EngineState where
  currentTheme : Option ThemePack
  currentContext : PageContext

/-- One `themechange` notification, carrying `{ theme, context }`. -/
structure ThemeEvent where
  theme : ThemePack
  context : PageContext
deriving DecidableEq, Repr

/-- The world acted on by `applyTheme`: engine state, DOM surface, and the
stream of dispatched notifications.  We model the browser environment
(`document` and `window` both defined); the SSR early return is not taken. -/
structure World where
  engine : EngineState
  dom : Dom
  events : List ThemeEvent

/-- One keyed assignment (`setAttribute` / `style.setProperty`). -/
def setKV (f : String → Option String) (k v : String) : String → Option String :=
  fun q => if q = k then some v else f q

/-- Run a sequence of keyed assignments in order. -/
def writeAll (ws : List (String × String)) (f : String → Option String) :
    String → Option String :=
  ws.foldl (fun g kv => setKV g kv.1 kv.2) f

/-- The DOM effect of one `applyTheme` call: the three data attributes, the
`dark` class toggle, and the ordered style-property writes. -/
def applyDom (theme : ThemePack) (context : PageContext) (d : Dom) : Dom :=
  { attrs :=
      setKV (setKV (setKV d.attrs "data-theme" (themeKeyOf theme.name))
          "data-theme-mode" (modeStr theme.mode))
        "data-context" (contextStr context)
    darkClass := match theme.mode with | .dark => true | .light => false
    style := writeAll (styleWrites theme) d.style }

/-- `ThemeEngine.applyTheme(theme, context)`: record the applied state,
project onto the DOM, and dispatch exactly one `themechange` event.
(`console.log` is ignored.) -/
def applyTheme (theme : ThemePack) (context : PageContext) (w : World) : World :=
  { engine := { currentTheme := some theme, currentContext := context }
    dom := applyDom theme context w.dom
    events := w.events ++ [⟨theme, context⟩] }

-- =============================================================================
-- CONCRETE FIXTURES (used by witness theorems)
-- =============================================================================

/-- A minimal concrete type-scale step. -/
def sampleTypeToken : TypeScaleToken :=
  { fontSize := "2rem", fontWeight := "600", letterSpacing := "-0.01em",
    lineHeight := "1.2", textTransform := none }

/-- A minimal concrete token set. -/
def sampleTokens : ThemeTokens :=
  { bg := "222 47% 5%", surface := "222 47% 7%", surface2 := "222 47% 9%",
    surfaceInset := "222 47% 4%", border := "222 30% 18%",
    borderSubtle := "222 30% 14%", text := "210 40% 96%",
    textMuted := "215 20% 65%", accent := "217 91% 60%",
    accentFg := "222 47% 5%", accentMuted := "217 91% 60% / 0.15",
    accentSecondary := "260 80% 65%", ring := "217 91% 60%",
    success := "142 70% 45%", successMuted := "142 70% 45% / 0.15",
    warning := "38 92% 50%", warningMuted := "38 92% 50% / 0.15",
    danger := "0 84% 60%", dangerMuted := "0 84% 60% / 0.15",
    shadowSurface := "0 1px 2px rgb(0 0 0 / 0.3)",
    shadowPopover := "0 8px 24px rgb(0 0 0 / 0.4)",
    shadowGlow := "0 0 24px rgb(59 130 246 / 0.2)",
    radiusSurface := "10px", radiusControl := "8px"
    typeScale :=
      { h1 := sampleTypeToken, h2 := sampleTypeToken, h3 := sampleTypeToken,
        body := sampleTypeToken, kpi := sampleTypeToken,
        kpiCompact := sampleTypeToken,
        label := { sampleTypeToken with textTransform := some "uppercase" } }
    density :=
      { tableRowHeight := "36px", tableRowHeightCompact := "30px",
        controlHeight := "32px", controlHeightSm := "26px",
        pageGutter := "24px", sectionGap := "24px",
        cardPadding := "16px", cardPaddingCompact := "12px" } }

/-- A small concrete legacy recipe record. -/
def sampleLegacyFields : LegacyFields :=
  { AppShell := some { backgroundTreatment := some "chronicle",
                       rest := [("glowColor", "accent")] }
    Surface := some
      { dfault := some { border := some true, borderOpacity := some "0.6",
                         shadow := some false, gradient := none,
                         gradientDirection := none, background := none,
                         rest := [] }
        floating := none
        rest := [] }
    SectionHeader := none
    rest := [("StatCard", "opaque")] }

/-- A concrete legacy-shape normalizer input. -/
def sampleLegacyPack : RawPack :=
  { name := "Chronicle Dark", mode := .dark, tokens := sampleTokens,
    recipes := some { product := none, marketing := none,
                      legacy := sampleLegacyFields } }

/-- The empty legacy recipe record (all keys absent). -/
def emptyLegacyFields : LegacyFields :=
  { AppShell := none, Surface := none, SectionHeader := none, rest := [] }

/-- A concrete current-shape (already normalized) theme pack. -/
def sampleCurrentPack : ThemePack :=
  { name := "Chronicle Dark", mode := .dark, tokens := sampleTokens,
    recipes :=
      { product := some { base := sampleLegacyFields
                          media := getProductMediaRecipes .dark
                          motion := getProductMotionRecipes }
        marketing := some (synthesizeMarketingRecipes sampleLegacyFields sampleTokens .dark)
        legacy := emptyLegacyFields } }

/-- A concrete bare legacy theme pack (as stored before normalization ever
ran; reachable through `getRecipesForContext`'s duck typing). -/
def sampleLegacyStoredPack : ThemePack :=
  { name := "Ops Calm", mode := .light, tokens := sampleTokens,
    recipes := { product := none, marketing := none, legacy := sampleLegacyFields } }

/-- A malformed legacy input: `recipes` is present but every nested recipe
field is absent. -/
def sampleMalformedLegacyPack : RawPack :=
  { name := "Malformed", mode := .light, tokens := sampleTokens,
    recipes := some { product := none, marketing := none,
                      legacy := emptyLegacyFields } }

/-- A neutral profile with density 0.2 (spec example for blend weighting). -/
def p02 : TasteProfile := { unknownReferenceProfile with density := 0.2 }

/-- A neutral profile with density 0.8 (spec example for blend weighting). -/
def p08 : TasteProfile := { unknownReferenceProfile with density := 0.8 }

/-- The spec's blend-weighting example: density 0.2 at weight 1 and
density 0.8 at weight 3. -/
def ex5 : List (TasteProfile × ℚ) := [(p02, 1), (p08, 3)]

/-- A cool/neutral tie: `linear` (cool) and `vercel` (neutral), each at
weight 1. -/
def cex6 : List Inspiration :=
  [ ⟨"reference-name", "linear", some 1⟩, ⟨"reference-name", "vercel", some 1⟩ ]

/-- A nonempty inspiration list whose single entry has an unrecognized
type. -/
def c10input : List Inspiration := [⟨"brand", "stripe", some 1⟩]

/-- A `PartialTuners` with every field absent. -/
def emptyPartialTuners : PartialTuners :=
  { abstraction := none, density := none, motion := none, contrast := none,
    narrative := none }

-- =============================================================================
-- HELPER LEMMAS
-- =============================================================================

theorem foldl_add_snd (ps : List (TasteProfile × ℚ)) :
    ∀ c : ℚ, ps.foldl (fun s p => s + p.2) c = c + (ps.map Prod.snd).sum := by
  induction ps with
  | nil => intro c; simp
  | cons a l ih => intro c; simp [ih]; ring

theorem totalWeight_eq_sum (ps : List (TasteProfile × ℚ)) :
    totalWeight ps = (ps.map Prod.snd).sum := by
  simpa using foldl_add_snd ps 0

theorem foldl_blend_get (tw : ℚ) (get : TasteProfile → ℚ)
    (h : ∀ acc pw, get (blendStep tw acc pw) = get acc + get pw.1 * (pw.2 / tw)) :
    ∀ (ps : List (TasteProfile × ℚ)) (acc : TasteProfile),
      get (ps.foldl (blendStep tw) acc) =
        get acc + (ps.map fun x => get x.1 * (x.2 / tw)).sum := by
  intro ps
  induction ps with
  | nil => intro acc; simp
  | cons a l ih => intro acc; simp [ih, h]; ring

theorem sum_map_mul_div (ps : List (TasteProfile × ℚ)) (get : TasteProfile → ℚ)
    (tw : ℚ) :
    (ps.map fun x => get x.1 * (x.2 / tw)).sum =
      (ps.map fun x => get x.1 * x.2).sum / tw := by
  induction ps with
  | nil => simp
  | cons a l ih => simp [ih, add_div]; ring

theorem blend_field_eq (ps : List (TasteProfile × ℚ)) (get : TasteProfile → ℚ)
    (hstep : ∀ acc pw, get (blendStep (totalWeight ps) acc pw) =
      get acc + get pw.1 * (pw.2 / totalWeight ps))
    (hnum : ∀ ms ct q, get { q with motifPreference := ms, colorTemperature := ct } = get q)
    (hzero : get emptyBlend = 0) :
    get (blendProfiles ps) = (ps.map fun x => get x.1 * x.2).sum / totalWeight ps := by
  unfold blendProfiles
  rw [hnum, foldl_blend_get _ get hstep, hzero, zero_add, sum_map_mul_div]

theorem blendProfiles_colorTemperature (ps : List (TasteProfile × ℚ)) :
    (blendProfiles ps).colorTemperature = pickTemperature (tempCounts ps) := by
  simp [blendProfiles]

/-- **C5** Blend weighting: for every profile list with non-negative
weights and positive total weight, each of the eight continuous fields of
the blended profile is the weighted average `(Σ field_i · w_i) / Σ w_i`
of the contributing profiles (the source accumulates
`field_i · (w_i / totalWeight)`, which over exact rationals equals the
weighted average). -/
theorem blend_weighted_average (ps : List (TasteProfile × ℚ))
    (hw : ∀ x ∈ ps, 0 ≤ x.2) (hW : 0 < totalWeight ps) :
    (blendProfiles ps).abstraction =
        (ps.map fun x => x.1.abstraction * x.2).sum / totalWeight ps ∧
    (blendProfiles ps).restraint =
        (ps.map fun x => x.1.restraint * x.2).sum / totalWeight ps ∧
    (blendProfiles ps).density =
        (ps.map fun x => x.1.density * x.2).sum / totalWeight ps ∧
    (blendProfiles ps).motion =
        (ps.map fun x => x.1.motion * x.2).sum / totalWeight ps ∧
    (blendProfiles ps).contrast =
        (ps.map fun x => x.1.contrast * x.2).sum / totalWeight ps ∧
    (blendProfiles ps).narrative =
        (ps.map fun x => x.1.narrative * x.2).sum / totalWeight ps ∧
    (blendProfiles ps).typographyLooseness =
        (ps.map fun x => x.1.typographyLooseness * x.2).sum / totalWeight ps ∧
    (blendProfiles ps).surfaceComplexity =
        (ps.map fun x => x.1.surfaceComplexity * x.2).sum / totalWeight ps := by
  refine ⟨?_, ?_, ?_, ?_, ?_, ?_, ?_, ?_⟩ <;>
    exact blend_field_eq ps _ (fun acc pw => by simp [blendStep])
      (fun ms ct q => rfl) rfl

/-- Witness for C5: the spec's concrete example.  The two profiles have
density 0.2 at weight 1 and density 0.8 at weight 3; the theorem applies
and the resulting weighted average evaluates to 0.65. -/
theorem blend_weighted_average_witness :
    (0 : ℚ) < totalWeight ex5 ∧
    (blendProfiles ex5).density =
        (ex5.map fun x => x.1.density * x.2).sum / totalWeight ex5 ∧
    (ex5.map fun x => x.1.density * x.2).sum / totalWeight ex5 = 0.65 := by
  refine ⟨by norm_num [totalWeight, ex5], ?_, ?_⟩
  · exact (blend_weighted_average ex5
      (by intro x hx; simp [ex5] at hx; rcases hx with h | h <;> simp [h])
      (by norm_num [totalWeight, ex5])).2.2.1
  · norm_num [ex5, totalWeight, p02, p08, unknownReferenceProfile]

/-- **C6 counterexample**: the claim predicts that a cool/neutral tie
yields `cool`.  On the concrete input `linear` (cool, weight 1) and
`vercel` (neutral, weight 1) the accumulated weights tie at 1 and the code
returns `neutral`, because its second conditional requires `cool` to
*strictly* exceed `neutral`. -/
theorem blend_tiebreak_counterexample :
    (deriveTasteFromInspirations cex6).toOption.map TasteProfile.colorTemperature =
      some ColorTemperature.neutral ∧
    ColorTemperature.neutral ≠ ColorTemperature.cool := by
  constructor
  · have h : (deriveTasteFromInspirations cex6).toOption.map TasteProfile.colorTemperature =
        some ((blendProfiles (collectProfiles cex6)).colorTemperature) := rfl
    rw [h, blendProfiles_colorTemperature,
      show tempCounts (collectProfiles cex6) = (0, 0 + 1, (0 : ℚ) + 1) from rfl]
    norm_num [pickTemperature]
  · decide

/-- **C6 amended**: in the color-temperature vote the category with
strictly greatest accumulated weight wins; when no category is strictly
greatest, a warm/cool tie yields `cool`, a neutral/warm tie yields
`neutral`, and a cool/neutral tie yields `neutral` — the effective
tie-break order is neutral beats cool beats warm, not cool beats neutral
beats warm. -/
theorem blend_tiebreak_amended (ps : List (TasteProfile × ℚ)) :
    ((tempCounts ps).1 > (tempCounts ps).2.1 ∧ (tempCounts ps).1 > (tempCounts ps).2.2 →
      (blendProfiles ps).colorTemperature = ColorTemperature.warm) ∧
    ((tempCounts ps).2.1 > (tempCounts ps).1 ∧ (tempCounts ps).2.1 > (tempCounts ps).2.2 →
      (blendProfiles ps).colorTemperature = ColorTemperature.cool) ∧
    ((tempCounts ps).2.2 > (tempCounts ps).1 ∧ (tempCounts ps).2.2 > (tempCounts ps).2.1 →
      (blendProfiles ps).colorTemperature = ColorTemperature.neutral) ∧
    ((tempCounts ps).1 = (tempCounts ps).2.1 ∧ (tempCounts ps).2.1 > (tempCounts ps).2.2 →
      (blendProfiles ps).colorTemperature = ColorTemperature.cool) ∧
    ((tempCounts ps).2.2 = (tempCounts ps).1 ∧ (tempCounts ps).1 > (tempCounts ps).2.1 →
      (blendProfiles ps).colorTemperature = ColorTemperature.neutral) ∧
    ((tempCounts ps).2.1 = (tempCounts ps).2.2 ∧ (tempCounts ps).1 ≤ (tempCounts ps).2.1 →
      (blendProfiles ps).colorTemperature = ColorTemperature.neutral) := by
  rw [blendProfiles_colorTemperature]
  rcases h : tempCounts ps with ⟨w, c, n⟩
  unfold pickTemperature
  dsimp only
  refine ⟨?_, ?_, ?_, ?_, ?_, ?_⟩ <;> rintro ⟨h1, h2⟩
  · rw [if_pos ⟨h1, h2⟩]
  · rw [if_neg (fun hh => absurd hh.1 (not_lt.mpr h1.le)), if_pos h2]
  · rw [if_neg (fun hh => absurd hh.2 (not_lt.mpr h1.le)),
      if_neg (not_lt.mpr h2.le)]
  · rw [if_neg (fun hh => absurd hh.1 (by rw [h1]; exact lt_irrefl c)), if_pos h2]
  · have hcn : c < n := by rw [h1]; exact h2
    rw [if_neg (fun hh => absurd hh.2 (by rw [h1]; exact lt_irrefl w)),
      if_neg (not_lt.mpr hcn.le)]
  · rw [if_neg (fun hh => absurd hh.1 (not_lt.mpr h2)),
      if_neg (by rw [h1]; exact lt_irrefl n)]

/-- Witness for C6 (amended): `chronicle` (cool) and `github` (neutral)
each at weight 1 tie, and the blend resolves the tie to `neutral`. -/
theorem blend_tiebreak_amended_witness :
    (blendProfiles (collectProfiles
        [⟨"reference-name", "chronicle", some 1⟩,
         ⟨"reference-name", "github", some 1⟩])).colorTemperature =
      ColorTemperature.neutral := by
  refine (blend_tiebreak_amended _).2.2.2.2.2 ⟨?_, ?_⟩ <;>
  · rw [show tempCounts (collectProfiles
        [⟨"reference-name", "chronicle", some 1⟩,
         ⟨"reference-name", "github", some 1⟩]) = (0, 0 + 1, (0 : ℚ) + 1) from rfl]
    try norm_num

/-- **C7** Blend empty-input failure: the empty observation sequence
raises the defined `InvalidRequest` error immediately. -/
theorem blend_empty_fails :
    deriveTasteFromInspirations [] =
      .error ⟨.invalidRequest, "At least one inspiration required"⟩ := rfl

/-- **C10 counterexample**: the claim asserts that an all-unrecognized
inspiration list makes every continuous field a 0/0 division whose result
need not lie in `[0, 1]`.  In fact the blending loop iterates over the
*empty* accumulated profile list, so no division is ever evaluated: on the
concrete input `[{type: brand}]` the call succeeds and returns the
zero-initialized blend, whose density is exactly 0 — inside `[0, 1]`. -/
theorem blend_unrecognized_counterexample :
    deriveTasteFromInspirations c10input = .ok emptyBlend ∧
    emptyBlend.density = 0 ∧
    (0 : ℚ) ≤ emptyBlend.density ∧ emptyBlend.density ≤ 1 := by
  refine ⟨rfl, rfl, le_refl 0, ?_⟩
  norm_num [emptyBlend]

/-- **C10 amended**: for every non-empty inspiration list in which no
entry's type is `reference-name`, `reference`, `url` or `screenshot`, the
call does not raise the empty-input error; zero profiles are accumulated,
the total weight is 0, and — since the blending loop runs over the empty
profile list — the returned profile is the zero-initialized blend (all
continuous fields 0, hence inside `[0, 1]`, empty motif preferences,
neutral color temperature). -/
theorem blend_unrecognized_amended (insps : List Inspiration)
    (hne : insps ≠ [])
    (hty : ∀ i ∈ insps, i.type ≠ "reference-name" ∧ i.type ≠ "reference" ∧
      i.type ≠ "url" ∧ i.type ≠ "screenshot") :
    collectProfiles insps = [] ∧ totalWeight (collectProfiles insps) = 0 ∧
    deriveTasteFromInspirations insps = .ok emptyBlend := by
  have hall : ∀ l : List Inspiration,
      (∀ i ∈ l, i.type ≠ "reference-name" ∧ i.type ≠ "reference" ∧
        i.type ≠ "url" ∧ i.type ≠ "screenshot") →
      collectProfiles l = [] := by
    intro l
    induction l with
    | nil => intro _; rfl
    | cons a t ih =>
      intro hl
      obtain ⟨h1, h2, h3, h4⟩ := hl a (by simp)
      have ht := ih fun i hi => hl i (by simp [hi])
      unfold collectProfiles at ht ⊢
      simp only [List.flatMap_cons]
      rw [if_neg (by simp [h1, h2]), if_neg h3, if_neg h4, List.nil_append, ht]
  have hcol := hall insps hty
  refine ⟨hcol, by rw [hcol]; rfl, ?_⟩
  unfold deriveTasteFromInspirations
  rw [if_neg (by simpa using hne), hcol]
  rfl

theorem clamp01_nonneg (v : ℚ) : 0 ≤ max 0 (min 1 v) := le_max_left 0 _

theorem clamp01_le_one (v : ℚ) : max 0 (min 1 v) ≤ 1 :=
  max_le zero_le_one (min_le_left 1 v)

theorem clamp01_of_mem (v : ℚ) (h0 : 0 ≤ v) (h1 : v ≤ 1) : max 0 (min 1 v) = v := by
  rw [min_eq_right h1, max_eq_right h0]

/-- **C8** Tuner clamping: `setTuner` clamps whichever of the five fields
it updates to `[0, 1]` inclusive, silently correcting rather than
rejecting out-of-range input: a value above 1 becomes exactly 1, a value
below 0 becomes exactly 0, and an in-range value is kept verbatim. -/
theorem setTuner_clamps (prev : AppliedTuners) (k : TunerKey) (v : ℚ) :
    (0 ≤ getTuner (setTuner prev k v) k ∧ getTuner (setTuner prev k v) k ≤ 1) ∧
    (1 ≤ v → getTuner (setTuner prev k v) k = 1) ∧
    (v ≤ 0 → getTuner (setTuner prev k v) k = 0) ∧
    (0 ≤ v → v ≤ 1 → getTuner (setTuner prev k v) k = v) := by
  have hval : getTuner (setTuner prev k v) k = max 0 (min 1 v) := by
    cases k <;> rfl
  rw [hval]
  refine ⟨⟨clamp01_nonneg v, clamp01_le_one v⟩, ?_, ?_, clamp01_of_mem v⟩
  · intro h; rw [min_eq_left h, max_eq_right zero_le_one]
  · intro h; rw [min_eq_right (h.trans zero_le_one), max_eq_left h]

/-- Witness for C8: the spec's two examples — setting `density` to 1.7
normalizes it to exactly 1, and setting it to -3 normalizes it to
exactly 0. -/
theorem setTuner_clamps_witness :
    getTuner (setTuner DEFAULT_TUNERS .density 1.7) .density = 1 ∧
    getTuner (setTuner DEFAULT_TUNERS .density (-3)) .density = 0 :=
  ⟨(setTuner_clamps DEFAULT_TUNERS .density 1.7).2.1 (by norm_num),
   (setTuner_clamps DEFAULT_TUNERS .density (-3)).2.2.1 (by norm_num)⟩

theorem toFixed1_bounds (q : ℚ) (h0 : 0 ≤ q) (h1 : q ≤ 1) :
    0 ≤ toFixed1 q ∧ toFixed1 q ≤ 1 := by
  unfold toFixed1
  constructor
  · apply div_nonneg _ (by norm_num)
    have : (0 : ℤ) ≤ ⌊q * 10 + 1 / 2⌋ := Int.le_floor.mpr (by push_cast; linarith)
    exact_mod_cast this
  · rw [div_le_one (by norm_num)]
    have h2 : ⌊q * 10 + 1 / 2⌋ ≤ ⌊(21 / 2 : ℚ)⌋ := Int.floor_le_floor (by linarith)
    have h3 : ⌊(21 / 2 : ℚ)⌋ = 10 := by norm_num
    rw [h3] at h2
    exact_mod_cast h2

theorem normalizeTuners_valid (p : PartialTuners) : tunersValid (normalizeTuners p) :=
  ⟨⟨clamp01_nonneg _, clamp01_le_one _⟩, ⟨clamp01_nonneg _, clamp01_le_one _⟩,
   ⟨clamp01_nonneg _, clamp01_le_one _⟩, ⟨clamp01_nonneg _, clamp01_le_one _⟩,
   ⟨clamp01_nonneg _, clamp01_le_one _⟩⟩

theorem mapToFixed1_valid (t : AppliedTuners) (h : tunersValid t) :
    tunersValid (mapToFixed1 t) := by
  obtain ⟨⟨a0, a1⟩, ⟨b0, b1⟩, ⟨c0, c1⟩, ⟨d0, d1⟩, ⟨e0, e1⟩⟩ := h
  exact ⟨toFixed1_bounds _ a0 a1, toFixed1_bounds _ b0 b1, toFixed1_bounds _ c0 c1,
    toFixed1_bounds _ d0 d1, toFixed1_bounds _ e0 e1⟩

theorem parse_serialize (t : AppliedTuners) (h : tunersValid t) :
    parseTunersFromURL (serializeTuners t) = partialOf (mapToFixed1 t) := by
  obtain ⟨⟨a0, a1⟩, ⟨b0, b1⟩, ⟨c0, c1⟩, ⟨d0, d1⟩, ⟨e0, e1⟩⟩ := h
  unfold parseTunersFromURL readTunerParam
  rw [show List.lookup "abstraction" (serializeTuners t) =
        some (toFixed1 t.abstraction) from rfl,
    show List.lookup "density" (serializeTuners t) = some (toFixed1 t.density) from rfl,
    show List.lookup "motion" (serializeTuners t) = some (toFixed1 t.motion) from rfl,
    show List.lookup "contrast" (serializeTuners t) = some (toFixed1 t.contrast) from rfl,
    show List.lookup "narrative" (serializeTuners t) =
        some (toFixed1 t.narrative) from rfl]
  unfold partialOf mapToFixed1
  simp only [PartialTuners.mk.injEq]
  refine ⟨?_, ?_, ?_, ?_, ?_⟩
  · rw [if_pos (toFixed1_bounds _ a0 a1)]
  · rw [if_pos (toFixed1_bounds _ b0 b1)]
  · rw [if_pos (toFixed1_bounds _ c0 c1)]
  · rw [if_pos (toFixed1_bounds _ d0 d1)]
  · rw [if_pos (toFixed1_bounds _ e0 e1)]

theorem normalizeTuners_partialOf (t : AppliedTuners) (h : tunersValid t) :
    normalizeTuners (partialOf t) = t := by
  obtain ⟨⟨a0, a1⟩, ⟨b0, b1⟩, ⟨c0, c1⟩, ⟨d0, d1⟩, ⟨e0, e1⟩⟩ := h
  unfold normalizeTuners partialOf
  simp only [Option.getD_some]
  rw [clamp01_of_mem _ a0 a1, clamp01_of_mem _ b0 b1, clamp01_of_mem _ c0 c1,
    clamp01_of_mem _ d0 d1, clamp01_of_mem _ e0 e1]

/-- **C9** Tuner URL round-trip: serialization writes one flat entry per
tuner field at one-decimal precision, and (first conjunct) the round-trip
law `normalize(deserialize(serialize(normalize(x)))) = normalize(x)` holds
up to one-decimal rounding of every field; equivalently (second conjunct)
for every valid `TunerValues` `v`, `deserialize(serialize(v))` returns
every field of `v` rounded to one decimal place. -/
theorem tuner_url_roundtrip (x : PartialTuners) (v : AppliedTuners)
    (hv : tunersValid v) :
    normalizeTuners (parseTunersFromURL (serializeTuners (normalizeTuners x))) =
      mapToFixed1 (normalizeTuners x) ∧
    parseTunersFromURL (serializeTuners v) = partialOf (mapToFixed1 v) := by
  constructor
  · rw [parse_serialize _ (normalizeTuners_valid x),
      normalizeTuners_partialOf _ (mapToFixed1_valid _ (normalizeTuners_valid x))]
  · exact parse_serialize v hv

/-- Witness for C9: the round-trip law applied at the empty partial record
(which normalizes to the all-0.5 defaults) and at `DEFAULT_TUNERS`. -/
theorem tuner_url_roundtrip_witness :
    normalizeTuners (parseTunersFromURL (serializeTuners
        (normalizeTuners emptyPartialTuners))) =
      mapToFixed1 (normalizeTuners emptyPartialTuners) ∧
    parseTunersFromURL (serializeTuners DEFAULT_TUNERS) =
      partialOf (mapToFixed1 DEFAULT_TUNERS) :=
  tuner_url_roundtrip emptyPartialTuners DEFAULT_TUNERS
    (by norm_num [tunersValid, DEFAULT_TUNERS])

/-- **C1** Normalization idempotence: whenever `normalizeThemePack`
returns a configuration, feeding that configuration back in returns it
unchanged — in particular the output of a first normalization has both
the `product` and `marketing` keys in its recipes record, so the second
call takes the early-return branch. -/
theorem normalize_idempotent (raw : RawPack) (p : ThemePack)
    (h : normalizeThemePack raw = .ok p) :
    normalizeThemePack p.toRaw = .ok p := by
  unfold normalizeThemePack at h
  cases hr : raw.recipes with
  | none => rw [hr] at h; exact absurd h (by simp)
  | some r =>
    rw [hr] at h
    dsimp only at h
    by_cases hc : r.product.isSome ∧ r.marketing.isSome
    · rw [if_pos hc] at h
      injection h with h'
      subst h'
      simp [normalizeThemePack, ThemePack.toRaw, hc.1, hc.2]
    · rw [if_neg hc] at h
      injection h with h'
      subst h'
      simp [normalizeThemePack, ThemePack.toRaw]

/-- Witness for C1: a concrete already-current pack normalizes to itself,
so a second normalization returns the first result unchanged. -/
theorem normalize_idempotent_witness :
    normalizeThemePack (ThemePack.toRaw sampleCurrentPack) = .ok sampleCurrentPack :=
  normalize_idempotent sampleCurrentPack.toRaw sampleCurrentPack rfl

/-- **C2 counterexample**: a legacy input carrying a name, mode and tokens
but no `recipes` record at all reaches the property access
`productRecipes.AppShell` on `undefined` while building the marketing
recipe literal, and normalization throws instead of returning a
configuration. -/
theorem normalize_missing_recipes_throws :
    normalizeThemePack
        { name := "Broken", mode := .dark, tokens := sampleTokens, recipes := none } =
      .error "TypeError: Cannot read properties of undefined (reading AppShell)" := rfl

/-- **C2 amended**: for every legacy input whose `recipes` record is
present — however malformed its nested recipe fields, which are tolerated
as `undefined` and propagated through synthesis — normalization returns a
configuration without raising an error.  Only an input lacking the
`recipes` record entirely throws. -/
theorem normalize_total_on_present_recipes (raw : RawPack) (r : RawRecipes)
    (h : raw.recipes = some r) : ∃ p, normalizeThemePack raw = .ok p := by
  unfold normalizeThemePack
  rw [h]
  dsimp only
  by_cases hc : r.product.isSome ∧ r.marketing.isSome
  · rw [if_pos hc]; exact ⟨_, rfl⟩
  · rw [if_neg hc]; exact ⟨_, rfl⟩

/-- Witness for C2 (amended): a malformed legacy input whose recipes
record is present but has every nested field missing still normalizes
successfully. -/
theorem normalize_total_witness :
    ∃ p, normalizeThemePack sampleMalformedLegacyPack = .ok p :=
  normalize_total_on_present_recipes sampleMalformedLegacyPack
    { product := none, marketing := none, legacy := emptyLegacyFields } rfl

/-- **C3** Resolver correctness: for a normalized configuration (both
context keys present) the marketing context returns the marketing recipe
set and the product context returns the product recipe set; for a bare
legacy configuration (neither key) the single recipe record itself is
returned for every context argument. -/
theorem resolver_correct (theme : ThemePack) :
    (∀ p m, theme.recipes.product = some p → theme.recipes.marketing = some m →
      getRecipesForContext theme .marketing = .marketing m ∧
      getRecipesForContext theme .product = .product p) ∧
    (theme.recipes.product = none → theme.recipes.marketing = none →
      ∀ ctx, getRecipesForContext theme ctx = .legacy theme.recipes.legacy) := by
  constructor
  · intro p m hp hm
    constructor <;> simp [getRecipesForContext, hp, hm]
  · intro hp hm ctx
    simp [getRecipesForContext, hp, hm]

/-- Witness for C3: resolution on a concrete normalized pack picks the
stored marketing subtree, and on a concrete bare legacy pack returns the
legacy record itself for both context arguments. -/
theorem resolver_correct_witness :
    getRecipesForContext sampleCurrentPack .marketing =
      .marketing (synthesizeMarketingRecipes sampleLegacyFields sampleTokens .dark) ∧
    getRecipesForContext sampleLegacyStoredPack .product = .legacy sampleLegacyFields ∧
    getRecipesForContext sampleLegacyStoredPack .marketing = .legacy sampleLegacyFields :=
  ⟨((resolver_correct sampleCurrentPack).1 _ _ rfl rfl).1,
   (resolver_correct sampleLegacyStoredPack).2 rfl rfl .product,
   (resolver_correct sampleLegacyStoredPack).2 rfl rfl .marketing⟩

theorem dom_ext (d1 d2 : Dom) (h1 : d1.attrs = d2.attrs)
    (h2 : d1.darkClass = d2.darkClass) (h3 : d1.style = d2.style) : d1 = d2 := by
  cases d1; cases d2; cases h1; cases h2; cases h3; rfl

/-- The value left for key `k` by a write sequence (last write wins). -/
def lastWrite (ws : List (String × String)) (k : String) : Option String :=
  ws.foldl (fun acc kv => if kv.1 = k then some kv.2 else acc) none

theorem option_or_assoc {α : Type} (a b c : Option α) :
    (a.or b).or c = a.or (b.or c) := by
  cases a <;> rfl

theorem foldl_lastWrite (k : String) :
    ∀ (ws : List (String × String)) (init : Option String),
      ws.foldl (fun acc kv => if kv.1 = k then some kv.2 else acc) init =
        (lastWrite ws k).or init := by
  intro ws
  induction ws with
  | nil => intro init; simp [lastWrite, Option.or]
  | cons a t ih =>
    intro init
    show t.foldl (fun acc kv => if kv.1 = k then some kv.2 else acc)
        (if a.1 = k then some a.2 else init) = _
    rw [ih]
    have h2 : lastWrite (a :: t) k =
        (lastWrite t k).or (if a.1 = k then some a.2 else none) := by
      show t.foldl (fun acc kv => if kv.1 = k then some kv.2 else acc)
          (if a.1 = k then some a.2 else none) = _
      rw [ih]
    rw [h2, option_or_assoc]
    congr 1
    by_cases h : a.1 = k <;> simp [h, Option.or]

theorem writeAll_apply (ws : List (String × String)) :
    ∀ (f : String → Option String) (k : String),
      writeAll ws f k = (lastWrite ws k).or (f k) := by
  induction ws with
  | nil => intro f k; simp [writeAll, lastWrite, Option.or]
  | cons a t ih =>
    intro f k
    show writeAll t (setKV f a.1 a.2) k = _
    rw [ih]
    have h2 : lastWrite (a :: t) k =
        (lastWrite t k).or (if a.1 = k then some a.2 else none) := by
      show t.foldl (fun acc kv => if kv.1 = k then some kv.2 else acc)
          (if a.1 = k then some a.2 else none) = _
      rw [foldl_lastWrite]
    rw [h2, option_or_assoc]
    congr 1
    unfold setKV
    by_cases h : a.1 = k
    · simp [h, Option.or]
    · simp [h, Ne.symm h, Option.or]

theorem writeAll_idem (ws : List (String × String)) (f : String → Option String) :
    writeAll ws (writeAll ws f) = writeAll ws f := by
  funext k
  rw [writeAll_apply ws (writeAll ws f) k, writeAll_apply ws f k]
  cases h : lastWrite ws k <;> simp [Option.or]

theorem applyDom_idem (theme : ThemePack) (ctx : PageContext) (d : Dom) :
    applyDom theme ctx (applyDom theme ctx d) = applyDom theme ctx d := by
  apply dom_ext
  · funext q
    simp only [applyDom, setKV]
    split_ifs <;> rfl
  · rfl
  · exact writeAll_idem (styleWrites theme) d.style

/-- **C4** Applier idempotence and notification count: applying the same
`(config, ctx)` twice in a row leaves the surface in an identical state —
each call performs the same deterministic ordered sequence of named
style-parameter writes (`styleWrites`), so the second application changes
nothing and nothing accumulates — and exactly two change notifications
are emitted in total, exactly one per call, each carrying `(config, ctx)`. -/
theorem apply_idempotent_two_events (theme : ThemePack) (ctx : PageContext)
    (w : World) :
    (applyTheme theme ctx (applyTheme theme ctx w)).dom =
      (applyTheme theme ctx w).dom ∧
    (applyTheme theme ctx (applyTheme theme ctx w)).engine =
      (applyTheme theme ctx w).engine ∧
    (applyTheme theme ctx w).events = w.events ++ [⟨theme, ctx⟩] ∧
    (applyTheme theme ctx (applyTheme theme ctx w)).events =
      w.events ++ [⟨theme, ctx⟩, ⟨theme, ctx⟩] ∧
    (applyTheme theme ctx (applyTheme theme ctx w)).events.length =
      w.events.length + 2 := by
  refine ⟨applyDom_idem theme ctx w.dom, rfl, rfl, ?_, ?_⟩
  · simp [applyTheme]
  · simp [applyTheme]

/-- Witness for C10 (amended): a single `description`-typed inspiration
raises no error and yields the zero-initialized blend. -/
theorem blend_unrecognized_amended_witness :
    deriveTasteFromInspirations [⟨"description", "mood board", none⟩] = .ok emptyBlend :=
  (blend_unrecognized_amended [⟨"description", "mood board", none⟩] (by simp)
    (by intro i hi; simp at hi; subst hi;
        exact ⟨by decide, by decide, by decide, by decide⟩)).2.2
